import Mathlib

/-!
Verification of the kpr-storefront presentation components.

The development shallowly embeds the logic of two source files:

* `app/components/product/media-zoom.tsx` — the `ZoomModal` media viewer:
  index resolution (`findIndex`), wraparound next/prev targets via JS
  `array[i] ?? fallback`, the keydown handler, and the
  `isVisibleInParent` / `scrollToMedia` visibility check.
* `app/components/product/media-zoom.tsx` (cart part) — the `Cart`
  component tree: empty-state vs details branch, per-line optimistic
  quantity display, quantity adjust controls, and the remove button.
* `app/components/layout/footer.tsx` — the newsletter submission
  message state.

JS numbers that hold cart quantities and indices are embedded as `Int`
(all values involved are integers; `Number(x.toFixed(0))` is the identity
on integers).  JS `undefined`/`null` is embedded as `Option`; the JS
truthiness fallbacks `a || b` (falsy on `0`, `""`, `undefined`) and
`a ?? b` (only nullish) are embedded by distinct explicit functions.
-/

namespace MediaZoom

/-- A media item as consumed by `ZoomModal`: only the fields the embedded
logic reads (`id`, `mediaContentType`). -/
structure MediaItem where
  id : String
  mediaContentType : String
  deriving Repr, DecidableEq

/-- JS array indexing `media[i]` with an `Int` index: `undefined` (here
`none`) when the index is negative or past the end. -/
def jsIndex (media : List MediaItem) (i : Int) : Option MediaItem :=
  if 0 ≤ i then media.get? i.toNat else none

/-- The JS nullish-coalescing operator `a ?? b`. -/
def jsNullish (a b : Option MediaItem) : Option MediaItem :=
  match a with
  | some x => some x
  | none => b

/-- `const zoomMediaIndex = media.findIndex((med) => med.id === zoomMediaId)`:
JS `findIndex` yields `-1` when no element matches. -/
def zoomMediaIndex (media : List MediaItem) (zoomMediaId : String) : Int :=
  match media.findIdx? (fun med => med.id == zoomMediaId) with
  | some i => (i : Int)
  | none => -1

/-- `const nextMedia = media[zoomMediaIndex + 1] ?? media[0]` in `ZoomModal`. -/
def nextMedia (media : List MediaItem) (zoomMediaId : String) : Option MediaItem :=
  jsNullish (jsIndex media (zoomMediaIndex media zoomMediaId + 1)) (jsIndex media 0)

/-- `const prevMedia = media[zoomMediaIndex - 1] ?? media[media.length - 1]`
in `ZoomModal`. -/
def prevMedia (media : List MediaItem) (zoomMediaId : String) : Option MediaItem :=
  jsNullish (jsIndex media (zoomMediaIndex media zoomMediaId - 1))
    (jsIndex media ((media.length : Int) - 1))

/-- `event.key === "ArrowRight" || event.key === "ArrowDown"` in `handleKeyDown`. -/
def keyAdvancesNext (key : String) : Bool :=
  key == "ArrowRight" || key == "ArrowDown"

/-- `event.key === "ArrowLeft" || event.key === "ArrowUp"` in `handleKeyDown`. -/
def keyAdvancesPrev (key : String) : Bool :=
  key == "ArrowLeft" || key == "ArrowUp"

/-- The id that `handleKeyDown` passes to `setZoomMediaId` for a key press:
it reads `nextMedia.id` / `prevMedia.id`.  `none` embeds the JS crash of
reading the `id` field of `undefined` (when the media list is empty);
a key that is none of the four arrows leaves the selection unchanged. -/
def handleKeyDown (media : List MediaItem) (zoomMediaId key : String) : Option String :=
  if keyAdvancesNext key then (nextMedia media zoomMediaId).map MediaItem.id
  else if keyAdvancesPrev key then (prevMedia media zoomMediaId).map MediaItem.id
  else some zoomMediaId

/-- The id the next arrow button's `onClick` passes to `setZoomMediaId`:
it reads `nextMedia.id`; `none` embeds the crash of reading `id` of
`undefined`. -/
def nextButtonTargetId (media : List MediaItem) (zoomMediaId : String) : Option String :=
  (nextMedia media zoomMediaId).map MediaItem.id

/-- The id the prev arrow button's `onClick` passes to `setZoomMediaId`:
it reads `prevMedia.id`; `none` embeds the crash of reading `id` of
`undefined`. -/
def prevButtonTargetId (media : List MediaItem) (zoomMediaId : String) : Option String :=
  (prevMedia media zoomMediaId).map MediaItem.id

/-- A DOM bounding rectangle as returned by `getBoundingClientRect`. -/
structure DOMRect where
  top : ℚ
  bottom : ℚ
  left : ℚ
  right : ℚ
  deriving Repr, DecidableEq

/-- `isVisibleInParent(child, parent)` from `media-zoom.tsx`: all four edges
of the child rect lie within the parent rect. -/
def isVisibleInParent (childRect parentRect : DOMRect) : Bool :=
  decide (childRect.top ≥ parentRect.top) &&
  decide (childRect.bottom ≤ parentRect.bottom) &&
  decide (childRect.left ≥ parentRect.left) &&
  decide (childRect.right ≤ parentRect.right)

/-- `scrollToMedia`: whether `scrollIntoView` is invoked, given the rect of the
target thumbnail element (`none` when `getElementById` finds no element)
and the rect of the scroll container.  The source invokes it exactly when
the element exists and `isVisibleInParent` is false. -/
def scrollToMedia (childRect : Option DOMRect) (parentRect : DOMRect) : Bool :=
  match childRect with
  | some c => !(isVisibleInParent c parentRect)
  | none => false

end MediaZoom

namespace CartModel

/-- A product referenced by a cart line's merchandise. -/
structure Product where
  handle : String
  title : String
  deriving Repr, DecidableEq

/-- Merchandise attached to a cart line; `product` is `none` when absent. -/
structure Merchandise where
  product : Option Product
  title : String
  deriving Repr, DecidableEq

/-- A cart line as rendered by the cart components: identifier, authoritative
quantity, the Hydrogen `isOptimistic` flag (a mutation for this line is in
flight), and the merchandise reference. -/
structure CartLine where
  id : String
  quantity : Int
  isOptimistic : Bool
  merchandise : Option Merchandise
  deriving Repr, DecidableEq

/-- The `OptimisticData` patch read via `useOptimisticData` keyed by line id:
`{ action?: string; quantity?: number }`. -/
structure OptimisticData where
  action : Option String
  quantity : Option Int
  deriving Repr, DecidableEq

/-- JS truthiness fallback `a || b` on a possibly-undefined number:
`undefined` and `0` are falsy. -/
def jsOrInt (a : Option Int) (b : Int) : Int :=
  match a with
  | some q => if q = 0 then b else q
  | none => b

/-- JS truthiness fallback `a || b` on a possibly-undefined string:
`undefined` and `""` are falsy. -/
def jsOrString (a : Option String) (b : String) : String :=
  match a with
  | some s => if s = "" then b else s
  | none => b

/-- `const optimisticQuantity = optimisticData?.quantity || line.quantity`
in `CartLineQuantityAdjust`. -/
def optimisticQuantity (optimisticData : Option OptimisticData) (line : CartLine) : Int :=
  jsOrInt (optimisticData.bind OptimisticData.quantity) line.quantity

/-- One entry of the `CartLineUpdateInput[]` payload sent with a
`LinesUpdate` cart mutation. -/
structure CartLineUpdateInput where
  id : String
  quantity : Int
  deriving Repr, DecidableEq

/-- A `CartForm` submission emitted by `UpdateCartButton`:
`action: CartForm.ACTIONS.LinesUpdate, inputs: { lines }`. -/
structure CartFormLinesUpdate where
  action : String
  lines : List CartLineUpdateInput
  deriving Repr, DecidableEq

/-- `UpdateCartButton`: wraps its children in a `CartForm` with the
`LinesUpdate` action and the given lines payload. -/
def UpdateCartButton (lines : List CartLineUpdateInput) : CartFormLinesUpdate :=
  { action := "LinesUpdate", lines := lines }

/-- The observable output of `CartLineQuantityAdjust` for one line: the
displayed quantity, the two `disabled` flags, the target quantities written
into the two `OptimisticInput`s, and the two mutation requests. -/
structure QuantityAdjustView where
  displayedQuantity : Int
  decrementDisabled : Bool
  incrementDisabled : Bool
  decrementOptimisticQuantity : Int
  incrementOptimisticQuantity : Int
  decrementRequest : CartFormLinesUpdate
  incrementRequest : CartFormLinesUpdate
  deriving Repr, DecidableEq

/-- `CartLineQuantityAdjust` from `media-zoom.tsx`:
`prevQuantity = Number(Math.max(0, optimisticQuantity - 1).toFixed(0))` and
`nextQuantity = Number((optimisticQuantity + 1).toFixed(0))` (the
`toFixed(0)`/`Number` round trip is the identity on integers); the decrement
button is `disabled={optimisticQuantity <= 1 || isOptimistic}`, the increment
button `disabled={isOptimistic}`; each button submits an `UpdateCartButton`
form carrying its target quantity. -/
def CartLineQuantityAdjust (line : CartLine) (optimisticData : Option OptimisticData) :
    QuantityAdjustView :=
  let q := optimisticQuantity optimisticData line
  let prevQuantity := max 0 (q - 1)
  let nextQuantity := q + 1
  { displayedQuantity := q
    decrementDisabled := decide (q ≤ 1) || line.isOptimistic
    incrementDisabled := line.isOptimistic
    decrementOptimisticQuantity := prevQuantity
    incrementOptimisticQuantity := nextQuantity
    decrementRequest := UpdateCartButton [{ id := line.id, quantity := prevQuantity }]
    incrementRequest := UpdateCartButton [{ id := line.id, quantity := nextQuantity }] }

/-- The `CartForm` emitted by `ItemRemoveButton`: a `LinesRemove` action over
`[lineId]`, with an `OptimisticInput` attaching `{ action: "remove" }` for
that line id. -/
structure RemoveForm where
  action : String
  lineIds : List String
  optimisticAction : String
  deriving Repr, DecidableEq

/-- `ItemRemoveButton` from `media-zoom.tsx`. -/
def ItemRemoveButton (lineId : String) : RemoveForm :=
  { action := "LinesRemove", lineIds := [lineId], optimisticAction := "remove" }

/-- The two cart layouts. -/
inductive Layouts where
  | page
  | drawer
  deriving Repr, DecidableEq

/-- The observable output of `CartLineItem` for one rendered line: the CSS
`display` value of the `<li>` and the remove form kept mounted inside it. -/
structure LineItemView where
  display : String
  removeForm : RemoveForm
  deriving Repr, DecidableEq

/-- `CartLineItem` from `media-zoom.tsx`: returns `null` when the line id is
falsy or the merchandise has no product (the `typeof quantity === "undefined"`
guard cannot fire in this embedding, where a line's quantity is always an
integer); otherwise renders the `<li>` with
`display: optimisticData?.action === "remove" ? "none" : "flex"`, keeping the
`ItemRemoveButton` form in the output (in the header for the drawer layout,
next to the quantity adjuster for the page layout). -/
def CartLineItem (line : CartLine) (optimisticData : Option OptimisticData)
    (layout : Layouts) : Option LineItemView :=
  if line.id = "" then none
  else
    match line.merchandise with
    | none => none
    | some merchandise =>
      match merchandise.product with
      | none => none
      | some _ =>
        some { display :=
                 if optimisticData.bind OptimisticData.action = some "remove"
                 then "none" else "flex"
               removeForm :=
                 match layout with
                 | Layouts.drawer => ItemRemoveButton line.id
                 | Layouts.page => ItemRemoveButton line.id }

/-- A cart snapshot: the fields of `CartApiQueryFragment` (and of the
optimistic cart produced from it by `useOptimisticCart`) that the `Cart`
component branch reads. -/
structure CartSnapshot where
  totalQuantity : Int
  lines : List CartLine
  deriving Repr, DecidableEq

/-- The top-level output of `Cart`: either the details layout, or the
empty-state layout rendered with the given `hidden` attribute (a hidden
empty state is still in the output, just not shown). -/
inductive CartView where
  | details
  | empty (hidden : Bool)
  deriving Repr, DecidableEq

/-- The `Cart` component from `media-zoom.tsx`:
`linesCount = Boolean(optimisticCart?.lines?.nodes?.length || 0)`,
`cartHasItems = !!cart && cart.totalQuantity > 0`; renders `CartDetails`
when `cartHasItems`, else `CartEmpty` with `hidden={linesCount}`.
The authoritative `cart` prop is always present here, so `!!cart` holds. -/
def Cart (cart optimisticCart : CartSnapshot) : CartView :=
  let linesCount := optimisticCart.lines.length != 0
  if 0 < cart.totalQuantity then CartView.details
  else CartView.empty linesCount

end CartModel

namespace FooterModel

/-- The `{ ok, error }` result of the newsletter POST, as read from
`fetcher.data`; `error` may be absent. -/
structure NewsletterResponse where
  ok : Bool
  error : Option String
  deriving Repr, DecidableEq

/-- The `message` / `error` `useState` pair of `Footer`. -/
structure MessageState where
  message : String
  error : String
  deriving Repr, DecidableEq

/-- The generic fallback error string in `Footer`. -/
def genericSignupError : String := "An error occurred while signing up."

/-- The success message set by `Footer` on `ok` responses. -/
def signupSuccessMessage : String := "Thank you for signing up! 🎉"

/-- The `onSubmit` handler of the newsletter form:
`setMessage(""); setError("")` before submitting. -/
def onSubmitClear (_s : MessageState) : MessageState :=
  { message := "", error := "" }

/-- The `useEffect` body run when `fetcher.data` arrives: on `!ok` sets
`error` to `newsLetterResponse.error || "An error occurred while signing up."`,
otherwise sets the success message. -/
def applyNewsletterResponse (s : MessageState) (r : NewsletterResponse) : MessageState :=
  if !r.ok then { s with error := CartModel.jsOrString r.error genericSignupError }
  else { s with message := signupSuccessMessage }

/-- The error block renders only when `error` is truthy (`{error && ...}`). -/
def errorDisplayed (s : MessageState) : Bool := s.error != ""

/-- The success block renders only when `message` is truthy (`{message && ...}`). -/
def messageDisplayed (s : MessageState) : Bool := s.message != ""

end FooterModel

namespace MediaZoom

/-- Sample media item used to instantiate witnesses. -/
def mediaA : MediaItem := { id := "gid://shopify/MediaImage/1", mediaContentType := "IMAGE" }

/-- Second sample media item used to instantiate witnesses. -/
def mediaB : MediaItem := { id := "gid://shopify/MediaImage/2", mediaContentType := "VIDEO" }

theorem jsIndex_natCast (media : List MediaItem) (n : Nat) :
    jsIndex media (n : Int) = media.get? n := by
  simp [jsIndex]

theorem jsIndex_neg (media : List MediaItem) (i : Int) (h : i < 0) :
    jsIndex media i = none := by
  simp [jsIndex]
  omega

theorem jsIndex_mem {media : List MediaItem} {i : Int} {x : MediaItem}
    (h : jsIndex media i = some x) : x ∈ media := by
  unfold jsIndex at h
  split at h
  · exact List.get?_mem h
  · exact absurd h (by simp)

theorem jsIndex_zero_of_ne_nil (media : List MediaItem) (hne : media ≠ []) :
    jsIndex media 0 = some (media.head hne) := by
  have h0 : (0 : Int) = ((0 : Nat) : Int) := rfl
  rw [h0, jsIndex_natCast]
  have hlen : 0 < media.length := List.length_pos.mpr hne
  rw [List.get?_eq_get hlen, List.get_mk_zero]

theorem jsIndex_last_of_ne_nil (media : List MediaItem) (hne : media ≠ []) :
    jsIndex media ((media.length : Int) - 1) = some (media.getLast hne) := by
  have hlen : 0 < media.length := List.length_pos.mpr hne
  have hcast : (media.length : Int) - 1 = ((media.length - 1 : Nat) : Int) := by omega
  rw [hcast, jsIndex_natCast]
  have hlt : media.length - 1 < media.length := by omega
  rw [List.get?_eq_get hlt, List.getLast_eq_get]

end MediaZoom

open MediaZoom CartModel FooterModel

/-- Claim C3: for every media list of length N ≥ 1 and every current index i
with 0 ≤ i < N (as resolved from the selected id by `findIndex`), the "next"
navigation target computed by `ZoomModal` is the item at index (i+1) mod N
and the "prev" target is the item at index (i−1+N) mod N. -/
theorem zoomModal_next_prev_mod (media : List MediaItem) (zoomMediaId : String)
    (i : Nat) (hi : i < media.length)
    (hidx : zoomMediaIndex media zoomMediaId = (i : Int)) :
    nextMedia media zoomMediaId = media.get? ((i + 1) % media.length) ∧
    prevMedia media zoomMediaId = media.get? ((i + media.length - 1) % media.length) := by
  constructor
  · unfold nextMedia
    rw [hidx]
    have hcast : (i : Int) + 1 = ((i + 1 : Nat) : Int) := by omega
    rw [hcast, jsIndex_natCast]
    rcases Nat.lt_or_ge (i + 1) media.length with h | h
    · rw [List.get?_eq_get h]
      rw [Nat.mod_eq_of_lt h, List.get?_eq_get h]
      rfl
    · have hnone : media.get? (i + 1) = none := List.get?_eq_none.mpr h
      rw [hnone]
      have heq : i + 1 = media.length := by omega
      have hmod : (i + 1) % media.length = 0 := by rw [heq, Nat.mod_self]
      rw [hmod]
      have h0 : jsIndex media 0 = media.get? 0 := jsIndex_natCast media 0
      rw [show jsNullish none (jsIndex media 0) = jsIndex media 0 from rfl, h0]
  · unfold prevMedia
    rw [hidx]
    rcases Nat.eq_zero_or_pos i with h0 | hpos
    · subst h0
      have hneg : jsIndex media ((0 : Nat) - 1 : Int) = none := jsIndex_neg media _ (by omega)
      rw [show ((0 : Nat) : Int) - 1 = ((0 : Nat) - 1 : Int) from by omega] at hneg ⊢
      rw [hneg]
      have hmod : (0 + media.length - 1) % media.length = media.length - 1 := by
        have : 0 + media.length - 1 = media.length - 1 := by omega
        rw [this, Nat.mod_eq_of_lt (by omega)]
      rw [hmod]
      have hlast : jsIndex media ((media.length : Int) - 1) = media.get? (media.length - 1) := by
        rw [show (media.length : Int) - 1 = ((media.length - 1 : Nat) : Int) from by omega,
          jsIndex_natCast]
      rw [show jsNullish none (jsIndex media ((media.length : Int) - 1)) =
        jsIndex media ((media.length : Int) - 1) from rfl, hlast]
    · have hcast : (i : Int) - 1 = ((i - 1 : Nat) : Int) := by omega
      rw [hcast, jsIndex_natCast]
      have hlt : i - 1 < media.length := by omega
      rw [List.get?_eq_get hlt]
      have hmod : (i + media.length - 1) % media.length = i - 1 := by
        have h1 : i + media.length - 1 = (i - 1) + media.length := by omega
        rw [h1, Nat.add_mod_right, Nat.mod_eq_of_lt hlt]
      rw [hmod, List.get?_eq_get hlt]
      rfl

/-- Witness for C3 at media = [mediaA, mediaB], selected id = mediaA's, i = 0. -/
theorem zoomModal_next_prev_mod_witness :
    nextMedia [mediaA, mediaB] "gid://shopify/MediaImage/1" =
      [mediaA, mediaB].get? ((0 + 1) % [mediaA, mediaB].length) ∧
    prevMedia [mediaA, mediaB] "gid://shopify/MediaImage/1" =
      [mediaA, mediaB].get? ((0 + [mediaA, mediaB].length - 1) % [mediaA, mediaB].length) :=
  zoomModal_next_prev_mod [mediaA, mediaB] "gid://shopify/MediaImage/1" 0
    (by decide) (by decide)

theorem zoomMediaIndex_eq_neg_one (media : List MediaItem) (zoomMediaId : String)
    (habsent : ∀ m ∈ media, m.id ≠ zoomMediaId) :
    zoomMediaIndex media zoomMediaId = -1 := by
  unfold zoomMediaIndex
  rw [List.findIdx?_eq_none_iff.mpr (fun m hm => by
    simpa using habsent m hm)]

/-- Claim C6: for every non-empty media list, if the selected media identifier
is absent from the list (`findIndex` yields −1), index resolution falls back
via the wraparound fallbacks as at the index-0 boundary: "next" is the first
item and "prev" the last, both well-defined elements of the list. -/
theorem zoomModal_absent_id_fallback (media : List MediaItem) (zoomMediaId : String)
    (hne : media ≠ [])
    (habsent : ∀ m ∈ media, m.id ≠ zoomMediaId) :
    nextMedia media zoomMediaId = some (media.head hne) ∧
    prevMedia media zoomMediaId = some (media.getLast hne) ∧
    media.head hne ∈ media ∧ media.getLast hne ∈ media := by
  have hidx : zoomMediaIndex media zoomMediaId = -1 :=
    zoomMediaIndex_eq_neg_one media zoomMediaId habsent
  refine ⟨?_, ?_, List.head_mem hne, List.getLast_mem hne⟩
  · unfold nextMedia
    rw [hidx, show (-1 + 1 : Int) = 0 from by norm_num,
      jsIndex_zero_of_ne_nil media hne]
    rfl
  · unfold prevMedia
    rw [hidx]
    have hneg : jsIndex media (-1 - 1) = none := jsIndex_neg media _ (by omega)
    rw [hneg]
    rw [show jsNullish none (jsIndex media ((media.length : Int) - 1)) =
      jsIndex media ((media.length : Int) - 1) from rfl]
    exact jsIndex_last_of_ne_nil media hne

/-- Witness for C6 at media = [mediaA, mediaB] and an id matching no item. -/
theorem zoomModal_absent_id_fallback_witness :
    nextMedia [mediaA, mediaB] "zzz" = some mediaA ∧
    prevMedia [mediaA, mediaB] "zzz" = some mediaB := by
  have h := zoomModal_absent_id_fallback [mediaA, mediaB] "zzz" (by decide) (by decide)
  exact ⟨h.1, h.2.1⟩

/-- Claim C9: `ZoomModal` navigation is total only for a non-empty media
list: for every non-empty list the computed next and prev targets are
defined members of the list, but for the empty list both targets are
`undefined` and every navigation action — an arrow-key press or either
arrow button — reads the `id` field of an undefined value (embedded as a
`none` target id). -/
theorem zoomModal_nav_total_only_nonempty (media : List MediaItem)
    (zoomMediaId key : String)
    (hkey : keyAdvancesNext key = true ∨ keyAdvancesPrev key = true) :
    (media ≠ [] →
      (∃ x, nextMedia media zoomMediaId = some x ∧ x ∈ media) ∧
      (∃ y, prevMedia media zoomMediaId = some y ∧ y ∈ media)) ∧
    (media = [] →
      nextMedia media zoomMediaId = none ∧
      prevMedia media zoomMediaId = none ∧
      handleKeyDown media zoomMediaId key = none ∧
      nextButtonTargetId media zoomMediaId = none ∧
      prevButtonTargetId media zoomMediaId = none) := by
  constructor
  · intro hne
    constructor
    · unfold nextMedia
      rcases hsome : jsIndex media (zoomMediaIndex media zoomMediaId + 1) with _ | x
      · rw [show jsNullish none (jsIndex media 0) = jsIndex media 0 from rfl,
          jsIndex_zero_of_ne_nil media hne]
        exact ⟨media.head hne, rfl, List.head_mem hne⟩
      · exact ⟨x, rfl, jsIndex_mem hsome⟩
    · unfold prevMedia
      rcases hsome : jsIndex media (zoomMediaIndex media zoomMediaId - 1) with _ | y
      · rw [show jsNullish none (jsIndex media ((media.length : Int) - 1)) =
          jsIndex media ((media.length : Int) - 1) from rfl,
          jsIndex_last_of_ne_nil media hne]
        exact ⟨media.getLast hne, rfl, List.getLast_mem hne⟩
      · exact ⟨y, rfl, jsIndex_mem hsome⟩
  · intro hnil
    subst hnil
    have hnext : nextMedia [] zoomMediaId = none := rfl
    have hprev : prevMedia [] zoomMediaId = none := rfl
    refine ⟨hnext, hprev, ?_, ?_, ?_⟩
    · unfold handleKeyDown
      rcases hnk : keyAdvancesNext key with _ | _
      · rcases hpk : keyAdvancesPrev key with _ | _
        · rcases hkey with hk | hk
          · rw [hnk] at hk
            exact absurd hk (by simp)
          · rw [hpk] at hk
            exact absurd hk (by simp)
        · simp [hnk, hpk, hprev]
      · simp [hnk, hnext]
    · unfold nextButtonTargetId
      rw [hnext]
      rfl
    · unfold prevButtonTargetId
      rw [hprev]
      rfl

/-- Witness for C9: the theorem applied at a two-item list (totality half)
and at the empty list (crash half). -/
theorem zoomModal_nav_total_only_nonempty_witness :
    (∃ x, nextMedia [mediaA, mediaB] "gid://shopify/MediaImage/1" = some x ∧
      x ∈ [mediaA, mediaB]) ∧
    handleKeyDown [] "gid://shopify/MediaImage/1" "ArrowRight" = none :=
  ⟨((zoomModal_nav_total_only_nonempty [mediaA, mediaB] "gid://shopify/MediaImage/1"
      "ArrowRight" (Or.inl (by decide))).1 (by decide)).1,
   ((zoomModal_nav_total_only_nonempty [] "gid://shopify/MediaImage/1"
      "ArrowRight" (Or.inl (by decide))).2 rfl).2.2.1⟩

/-- Claim C8: on a navigation action, `scrollToMedia` invokes
`scrollIntoView` on the found target thumbnail if and only if the
thumbnail's bounding box is not fully contained in the scroll container's
bounding box — full containment meaning all four edges (top, bottom, left,
right) lie within the container's box; when no element is found nothing is
invoked. -/
theorem scrollToMedia_iff_not_contained (c p : DOMRect) :
    (scrollToMedia (some c) p = true ↔
      ¬(c.top ≥ p.top ∧ c.bottom ≤ p.bottom ∧ c.left ≥ p.left ∧ c.right ≤ p.right)) ∧
    scrollToMedia none p = false := by
  refine ⟨?_, rfl⟩
  unfold scrollToMedia isVisibleInParent
  rcases Decidable.em (c.top ≥ p.top ∧ c.bottom ≤ p.bottom ∧ c.left ≥ p.left ∧
    c.right ≤ p.right) with h | h
  · simp [h.1, h.2.1, h.2.2.1, h.2.2.2]
  · simp only [Bool.not_eq_true']
    constructor
    · intro _
      exact h
    · intro _
      by_contra hcon
      simp only [Bool.not_eq_false, Bool.and_eq_true, decide_eq_true_eq] at hcon
      exact h ⟨hcon.1.1.1, hcon.1.1.2, hcon.1.2, hcon.2⟩

/-- Sample cart line used to instantiate witnesses. -/
def sampleLine : CartLine :=
  { id := "gid://shopify/CartLine/1"
    quantity := 2
    isOptimistic := false
    merchandise := some { product := some { handle := "tee", title := "Tee" }, title := "M" } }

/-- Claim C1: for the `Cart` component with an authoritative cart whose
`totalQuantity` is 0, an optimistic line count of 1 renders the empty-state
view hidden (suppressed, not shown) and an optimistic line count of 0
renders it shown; the detailed view is rendered exactly when the
authoritative `totalQuantity` is greater than 0. -/
theorem cart_empty_state_branch (cart optimisticCart : CartSnapshot) :
    (Cart cart optimisticCart = CartView.details ↔ 0 < cart.totalQuantity) ∧
    (cart.totalQuantity = 0 → optimisticCart.lines.length = 1 →
      Cart cart optimisticCart = CartView.empty true) ∧
    (cart.totalQuantity = 0 → optimisticCart.lines.length = 0 →
      Cart cart optimisticCart = CartView.empty false) := by
  unfold Cart
  rcases Decidable.em (0 < cart.totalQuantity) with h | h
  · rw [if_pos h]
    exact ⟨by simp [h], fun h0 _ => absurd h (by omega), fun h0 _ => absurd h (by omega)⟩
  · rw [if_neg h]
    refine ⟨by simp [h], fun _ hlen => ?_, fun _ hlen => ?_⟩
    · have hb : (optimisticCart.lines.length != 0) = true := by simp [hlen]
      rw [hb]
    · have hb : (optimisticCart.lines.length != 0) = false := by simp [hlen]
      rw [hb]

/-- Witness for C1 at authoritative totalQuantity 0, with optimistic line
count 1 and 0. -/
theorem cart_empty_state_branch_witness :
    Cart ⟨0, []⟩ ⟨0, [sampleLine]⟩ = CartView.empty true ∧
    Cart ⟨0, []⟩ ⟨0, []⟩ = CartView.empty false :=
  ⟨(cart_empty_state_branch ⟨0, []⟩ ⟨0, [sampleLine]⟩).2.1 rfl rfl,
   (cart_empty_state_branch ⟨0, []⟩ ⟨0, []⟩).2.2 rfl rfl⟩

/-- Claim C2: in `CartLineQuantityAdjust`, the decrement control is disabled
if and only if the displayed (optimistic) quantity is at most 1 or a
mutation for that line is pending (`isOptimistic`), and the increment
control is disabled if and only if a mutation for that line is pending. -/
theorem cartLine_controls_disabled_iff (line : CartLine) (od : Option OptimisticData) :
    ((CartLineQuantityAdjust line od).decrementDisabled = true ↔
      ((CartLineQuantityAdjust line od).displayedQuantity ≤ 1 ∨
        line.isOptimistic = true)) ∧
    ((CartLineQuantityAdjust line od).incrementDisabled = true ↔
      line.isOptimistic = true) := by
  unfold CartLineQuantityAdjust
  simp

/-- Claim C7: `CartLineQuantityAdjust` computes the decrement target as
max(0, q−1) and the increment target as q+1 from the displayed quantity q
(integer-valued, so the `toFixed(0)` rounding is the identity), and each
control emits a `LinesUpdate` mutation request carrying exactly that target
quantity for the line, also written into the control's `OptimisticInput`. -/
theorem cartLine_quantity_targets (line : CartLine) (od : Option OptimisticData) :
    (CartLineQuantityAdjust line od).decrementRequest =
      { action := "LinesUpdate"
        lines := [{ id := line.id
                    quantity := max 0 ((CartLineQuantityAdjust line od).displayedQuantity - 1) }] } ∧
    (CartLineQuantityAdjust line od).incrementRequest =
      { action := "LinesUpdate"
        lines := [{ id := line.id
                    quantity := (CartLineQuantityAdjust line od).displayedQuantity + 1 }] } ∧
    (CartLineQuantityAdjust line od).decrementOptimisticQuantity =
      max 0 ((CartLineQuantityAdjust line od).displayedQuantity - 1) ∧
    (CartLineQuantityAdjust line od).incrementOptimisticQuantity =
      (CartLineQuantityAdjust line od).displayedQuantity + 1 :=
  ⟨rfl, rfl, rfl, rfl⟩

/-- Claim C10: in `CartLineQuantityAdjust`, a pending optimistic patch whose
quantity is 0 does not override the authoritative quantity: the displayed
quantity is the authoritative line quantity; the optimistic quantity wins
only when it is nonzero, and an absent optimistic quantity also falls back. -/
theorem optimistic_zero_quantity_falls_back (line : CartLine) (d : OptimisticData) :
    (d.quantity = some 0 →
      (CartLineQuantityAdjust line (some d)).displayedQuantity = line.quantity) ∧
    (∀ q : Int, d.quantity = some q → q ≠ 0 →
      (CartLineQuantityAdjust line (some d)).displayedQuantity = q) ∧
    (d.quantity = none →
      (CartLineQuantityAdjust line (some d)).displayedQuantity = line.quantity) := by
  refine ⟨?_, ?_, ?_⟩
  · intro h0
    simp [CartLineQuantityAdjust, optimisticQuantity, jsOrInt, h0]
  · intro q hq hq0
    simp [CartLineQuantityAdjust, optimisticQuantity, jsOrInt, hq, hq0]
  · intro hn
    simp [CartLineQuantityAdjust, optimisticQuantity, jsOrInt, hn]

/-- Witness for C10 at a line with authoritative quantity 2 and an
optimistic patch of quantity 0. -/
theorem optimistic_zero_quantity_falls_back_witness :
    (CartLineQuantityAdjust sampleLine
      (some { action := none, quantity := some 0 })).displayedQuantity =
      sampleLine.quantity :=
  (optimistic_zero_quantity_falls_back sampleLine
    { action := none, quantity := some 0 }).1 rfl

/-- Claim C5: in `CartLineItem`, a line whose optimistic patch has action
"remove" is rendered with `display: none` — hidden, not unmounted — and the
`ItemRemoveButton` form (the `LinesRemove` submission for that line id with
its optimistic "remove" marker) stays mounted in the output. -/
theorem optimistic_remove_hides_line (line : CartLine) (d : OptimisticData)
    (layout : Layouts) (m : Merchandise) (p : Product)
    (hid : line.id ≠ "") (hm : line.merchandise = some m) (hp : m.product = some p)
    (ha : d.action = some "remove") :
    CartLineItem line (some d) layout =
      some { display := "none", removeForm := ItemRemoveButton line.id } ∧
    ItemRemoveButton line.id =
      { action := "LinesRemove", lineIds := [line.id], optimisticAction := "remove" } := by
  refine ⟨?_, rfl⟩
  unfold CartLineItem
  rw [if_neg hid]
  simp only [hm, hp, Option.some_bind, ha]
  cases layout <;> rfl

/-- Witness for C5 at a concrete line with an optimistic "remove" patch. -/
theorem optimistic_remove_hides_line_witness :
    CartLineItem sampleLine (some { action := some "remove", quantity := none })
      Layouts.drawer =
      some { display := "none", removeForm := ItemRemoveButton sampleLine.id } :=
  (optimistic_remove_hides_line sampleLine { action := some "remove", quantity := none }
    Layouts.drawer
    { product := some { handle := "tee", title := "Tee" }, title := "M" }
    { handle := "tee", title := "Tee" }
    (by decide) rfl rfl rfl).1

/-- Claim C4: on newsletter submission completion in `Footer`, a response
`{ok: false, error: "Invalid email"}` displays the error "Invalid email";
`{ok: false}` with no error field displays the generic fallback string;
`{ok: true}` displays the success message with no error shown; and both
messages are cleared at the start of each new submission. -/
theorem newsletter_messages (s : MessageState) (e : Option String) :
    applyNewsletterResponse (onSubmitClear s) { ok := false, error := some "Invalid email" } =
      { message := "", error := "Invalid email" } ∧
    applyNewsletterResponse (onSubmitClear s) { ok := false, error := none } =
      { message := "", error := genericSignupError } ∧
    (applyNewsletterResponse (onSubmitClear s) { ok := true, error := e }).message =
      signupSuccessMessage ∧
    errorDisplayed (applyNewsletterResponse (onSubmitClear s) { ok := true, error := e }) =
      false ∧
    onSubmitClear s = { message := "", error := "" } := by
  refine ⟨?_, rfl, rfl, rfl, rfl⟩
  simp [applyNewsletterResponse, onSubmitClear, jsOrString]
